import Mathlib

/-!
Verification development for the KEGG SMILES similarity miner
(src/SMILES-Data-Miner/Betaxantina.py).

The script is embedded shallowly:

* The filesystem is a map from file names to optional file content, where
  content is the list of lines (without the trailing newline character).
* The network and the cheminformatics toolkit (RDKit) are external; they are
  modelled as parameters: a map from KEGG id to the optional text of the HTTP
  response, and a `ChemLib` bundle of parsing and fingerprint functions.  A
  Morgan fingerprint bit vector is represented by the finite set of indices of
  its set bits; similarity scores are rational numbers.
* `pool.imap_unordered` yields the worker results in completion order, which is
  an arbitrary permutation of the per-identifier worker outputs; a run is
  therefore modelled as a function of an explicit arrival list, constrained in
  theorems to be a permutation of the list of worker outputs in input order.
* `time.sleep`, request pause and timeout only affect timing; they are carried
  as inert parameters and absorbed into the abstract network map.
-/

/-- Default configuration constants of the script (lines 16-25 of the source).
The reference SMILES is aspirin. -/
def DEFAULT_SMILES_BASE : String := "CC(=O)OC1=CC=CC=C1C(=O)O"

/-- Default similarity threshold 0.7. -/
def DEFAULT_SIMILARITY_THRESHOLD : ℚ := 7/10

/-- Default pause 0.2 seconds. -/
def DEFAULT_PAUSE : ℚ := 1/5

/-- Default request timeout 10 seconds. -/
def DEFAULT_TIMEOUT : ℚ := 10

/-- Default fingerprint length 2048 bits. -/
def DEFAULT_NBITS : Nat := 2048

/-- Default Morgan radius 2. -/
def DEFAULT_RADIUS : Nat := 2

/-- Characters removed by Python str.strip with no argument: space, tab,
newline, carriage return, vertical tab, form feed. -/
def pyIsSpace (c : Char) : Bool :=
  c = ' ' || c = '\t' || c = '\n' || c = '\r' || c = '\x0b' || c = '\x0c'

/-- Python str.strip with no argument: drop leading and trailing whitespace. -/
def pyStrip (s : String) : String :=
  ⟨((s.data.dropWhile pyIsSpace).reverse.dropWhile pyIsSpace).reverse⟩

/-- Python s.split of a tab, index 0: the part of the string before the first
tab character. -/
def firstTabField (s : String) : String :=
  ⟨s.data.takeWhile (fun c => c ≠ '\t')⟩

/-- Log levels of the logging module as used by the script. -/
inductive LogLevel where
  | info
  | warning
  | error
deriving DecidableEq

/-- Embeds read_kegg_ids (source lines 34-40).  The filesystem is the map fs;
fs filename is none when os.path.exists is false.  A missing file yields the
empty list; otherwise every line whose strip is nonempty contributes the first
tab-delimited field of its stripped text, in file order. -/
def read_kegg_ids (fs : String → Option (List String)) (filename : String) :
    List String :=
  match fs filename with
  | none => []
  | some lines =>
      (lines.filter (fun l => pyStrip l ≠ "")).map (fun l => firstTabField (pyStrip l))

/-- Log records emitted by read_kegg_ids: a missing file logs exactly one error
record and the function returns normally (it is total, nothing is raised). -/
def read_kegg_ids_log (fs : String → Option (List String)) (filename : String) :
    List (LogLevel × String) :=
  match fs filename with
  | none => [(LogLevel.error, "File not found: " ++ filename)]
  | some _ => []

/-- Abstract interface to the external cheminformatics toolkit (RDKit).
MolFromSmiles and MolFromMolBlock return none exactly when RDKit returns None
(parse failure); a returned Mol object is always truthy in Python, so the
source test mol1 and mol2 is the conjunction of the two options being some.
MorganFingerprint mol radius nbits is the set of indices of the set bits of
GetMorganFingerprintAsBitVect(mol, radius, nBits=nbits); it is a function, so
fingerprints are deterministic in (mol, radius, nbits). -/
structure ChemLib where
  Mol : Type
  MolFromSmiles : String → Option Mol
  MolFromMolBlock : String → Option Mol
  MolToSmiles : Mol → String
  MorganFingerprint : Mol → Nat → Nat → Finset Nat

/-- DataStructs.TanimotoSimilarity on two bit vectors given as sets of set-bit
indices: shared set bits over the union of set bits.  Rational division by zero
is zero in Lean, matching RDKit, which returns 0.0 when both vectors are all
zeros. -/
def TanimotoSimilarity (fp1 fp2 : Finset Nat) : ℚ :=
  ((fp1 ∩ fp2).card : ℚ) / ((fp1 ∪ fp2).card : ℚ)

/-- Embeds tanimoto_similarity_pair (source lines 56-64): parse both SMILES; if
both parse, compare the Morgan fingerprints built with identical (radius,
nbits); if either parse fails, return 0.0. -/
def tanimoto_similarity_pair (lib : ChemLib) (smiles1 smiles2 : String)
    (nbits radius : Nat) : ℚ :=
  match lib.MolFromSmiles smiles1, lib.MolFromSmiles smiles2 with
  | some mol1, some mol2 =>
      TanimotoSimilarity (lib.MorganFingerprint mol1 radius nbits)
        (lib.MorganFingerprint mol2 radius nbits)
  | _, _ => 0

/-- Embeds get_smiles_from_kegg (source lines 42-54).  net kegg_id is the text
of the HTTP response for rest.kegg.jp/get/kegg_id/mol, or none for any raised
exception (connection error, timeout, raise_for_status on a non-success
status); the sleep of pause seconds and the timeout only affect timing.  On a
response, MolFromMolBlock parses the text; a parse failure falls through to
None, otherwise the canonical SMILES MolToSmiles(mol) is returned. -/
def get_smiles_from_kegg (lib : ChemLib) (net : String → Option String)
    (kegg_id : String) (pause timeout : ℚ) : Option String :=
  match net kegg_id with
  | none => none
  | some text =>
      match lib.MolFromMolBlock text with
      | some mol => some (lib.MolToSmiles mol)
      | none => none

/-- A Python value passed as the kegg_id component of the worker argument
tuple: either a str or some value of any other type. -/
inductive PyVal where
  | pystr (s : String)
  | other
deriving DecidableEq

/-- A match tuple (kegg_id, smiles, sim) as returned by the worker. -/
structure MatchRec where
  kegg_id : String
  smiles : String
  sim : ℚ
deriving DecidableEq

/-- Embeds evaluar_similitud (source lines 66-76).  A non-str kegg_id, or a
falsy one (the empty string), returns None.  Then the SMILES is fetched; the
Python truthiness test on the result (if smiles:) rejects both None and the
empty string.  On a usable SMILES the similarity against smiles_base is
computed and a match tuple is returned exactly when sim is at least the
threshold. -/
def evaluar_similitud (lib : ChemLib) (net : String → Option String)
    (kegg_id : PyVal) (smiles_base : String) (threshold : ℚ)
    (pause timeout : ℚ) (nbits radius : Nat) : Option MatchRec :=
  match kegg_id with
  | PyVal.other => none
  | PyVal.pystr kid =>
      if kid = "" then none
      else
        match get_smiles_from_kegg lib net kid pause timeout with
        | some smiles =>
            if smiles ≠ "" then
              if tanimoto_similarity_pair lib smiles_base smiles nbits radius ≥ threshold then
                some ⟨kid, smiles, tanimoto_similarity_pair lib smiles_base smiles nbits radius⟩
              else none
            else none
        | none => none

/-- The worker evaluation dispatched by the pool for one input identifier: the
argument tuple built at source lines 106-110 applied to evaluar_similitud. -/
def worker (lib : ChemLib) (net : String → Option String) (smiles_base : String)
    (threshold pause timeout : ℚ) (nbits radius : Nat) (kegg_id : String) :
    Option MatchRec :=
  evaluar_similitud lib net (PyVal.pystr kegg_id) smiles_base threshold pause timeout nbits radius

/-- The two accumulators built by the fan-in loop of main (source lines
113-118). -/
structure RunOutput where
  resultados : List MatchRec
  failed_ids : List String
deriving DecidableEq

/-- Embeds the fan-in loop of main (source lines 113-118).  The results of
pool.imap_unordered arrive in completion order, given here as the list arrival;
the source zips that iterator positionally against kegg_ids, which is in input
order.  For each pair, a non-None result is appended to resultados and
otherwise the positionally paired identifier is appended to failed_ids. -/
def main_collect (arrival : List (Option MatchRec)) (kegg_ids : List String) :
    RunOutput :=
  { resultados := (arrival.zip kegg_ids).filterMap (fun p => p.1)
    failed_ids := (arrival.zip kegg_ids).filterMap
      (fun p => if p.1.isNone then some p.2 else none) }

/-- Embeds resultados.sort with key x[2] and reverse True (source line 121): a
stable sort placing larger similarity first, ties keeping their previous
relative order. -/
def sort_resultados (l : List MatchRec) : List MatchRec :=
  List.insertionSort (fun a b => b.sim ≤ a.sim) l

/-- The legal outputs of pool.imap_unordered on the pool arguments: any
permutation of the list of per-identifier worker results taken in input order
(completion order carries no guarantee). -/
def ValidArrival (lib : ChemLib) (net : String → Option String)
    (smiles_base : String) (threshold pause timeout : ℚ) (nbits radius : Nat)
    (kegg_ids : List String) (arrival : List (Option MatchRec)) : Prop :=
  arrival.Perm (kegg_ids.map (worker lib net smiles_base threshold pause timeout nbits radius))

/-- The match CSV: header row and one data row per match tuple, written by
csv.writer (source lines 124-128). -/
structure MatchCsv where
  header : List String
  rows : List MatchRec
deriving DecidableEq

/-- The failed-identifier CSV: header row and one identifier per row (source
lines 132-137). -/
structure FailedCsv where
  header : List String
  rows : List String
deriving DecidableEq

/-- The files written by one run of main: none means the file was not written
at all. -/
structure MainResult where
  output_file : Option MatchCsv
  failed_file : Option FailedCsv
deriving DecidableEq

/-- Embeds main from the read of the identifiers to the two CSV writes (source
lines 100-138; the grid image step is outside the claims and omitted).  When
read_kegg_ids yields no identifiers, main prints and returns before writing
anything.  Otherwise the fan-in runs over the given arrival order, resultados
is sorted by similarity descending, the match CSV is always written with its
header, and the failed CSV is written only when failed_ids is nonempty. -/
def main_run (fs : String → Option (List String)) (input_file : String)
    (arrival : List (Option MatchRec)) : MainResult :=
  let kegg_ids := read_kegg_ids fs input_file
  if kegg_ids = [] then ⟨none, none⟩
  else
    let out := main_collect arrival kegg_ids
    { output_file := some ⟨["KEGG_ID", "SMILES", "Tanimoto_Similarity"],
        sort_resultados out.resultados⟩
      failed_file :=
        if out.failed_ids ≠ [] then some ⟨["KEGG_ID"], out.failed_ids⟩ else none }

/-- Concrete toolkit used in the concrete scenarios.  A molecule is represented
by its SMILES text; the SMILES text X does not parse, every other string does;
the molblock text parses to itself verbatim and canonicalizes to itself; the
fingerprint of the reference molecule (aspirin) is the bit set containing 0 and
the fingerprint of every other molecule is the bit set containing 1. -/
def libS : ChemLib :=
  { Mol := String
    MolFromSmiles := fun s => if s = "X" then none else some s
    MolFromMolBlock := fun t => some t
    MolToSmiles := fun m => m
    MorganFingerprint := fun m _ _ => if m = DEFAULT_SMILES_BASE then {0} else {1} }

/-- Network of the two-identifier scenario: the fetch for C00001 yields a
structure whose canonical SMILES is identical to the reference, the fetch for
C99999 raises an HTTP 404 through raise_for_status. -/
def net1 : String → Option String :=
  fun kid => if kid = "C00001" then some DEFAULT_SMILES_BASE else none

/-- Filesystem of the two-identifier scenario: compounds.txt holds the lines
C00001 and C99999. -/
def fs1 : String → Option (List String) :=
  fun name => if name = "compounds.txt" then some ["C00001", "C99999"] else none

/-- Network of the below-threshold scenario: both fetches succeed; C00001
canonicalizes to the reference SMILES, C00002 to ethanol (CCO), whose
fingerprint shares no bit with the reference fingerprint. -/
def net9 : String → Option String :=
  fun kid =>
    if kid = "C00001" then some DEFAULT_SMILES_BASE
    else if kid = "C00002" then some "CCO" else none

/-- Filesystem of the below-threshold scenario. -/
def fs9 : String → Option (List String) :=
  fun name => if name = "compounds.txt" then some ["C00001", "C00002"] else none

/-- The match tuple produced for C00001 in both concrete scenarios. -/
def rec1 : MatchRec := ⟨"C00001", DEFAULT_SMILES_BASE, 1⟩

theorem tanimoto_self_one :
    tanimoto_similarity_pair libS DEFAULT_SMILES_BASE DEFAULT_SMILES_BASE
      DEFAULT_NBITS DEFAULT_RADIUS = 1 := by
  simp [tanimoto_similarity_pair, libS, TanimotoSimilarity, DEFAULT_SMILES_BASE]

theorem tanimoto_cco_zero :
    tanimoto_similarity_pair libS DEFAULT_SMILES_BASE "CCO"
      DEFAULT_NBITS DEFAULT_RADIUS = 0 := by
  simp [tanimoto_similarity_pair, libS, TanimotoSimilarity, DEFAULT_SMILES_BASE]

theorem get_smiles_net1_C00001 :
    get_smiles_from_kegg libS net1 "C00001" DEFAULT_PAUSE DEFAULT_TIMEOUT =
      some DEFAULT_SMILES_BASE := by
  simp [get_smiles_from_kegg, net1, libS]

theorem worker_net1_C00001 :
    worker libS net1 DEFAULT_SMILES_BASE DEFAULT_SIMILARITY_THRESHOLD
      DEFAULT_PAUSE DEFAULT_TIMEOUT DEFAULT_NBITS DEFAULT_RADIUS "C00001" = some rec1 := by
  have hne : DEFAULT_SMILES_BASE ≠ "" := by decide
  have hth : DEFAULT_SIMILARITY_THRESHOLD ≤ (1 : ℚ) := by
    norm_num [DEFAULT_SIMILARITY_THRESHOLD]
  simp [worker, evaluar_similitud, get_smiles_net1_C00001, tanimoto_self_one,
    hne, hth, rec1]

theorem worker_net1_C99999 :
    worker libS net1 DEFAULT_SMILES_BASE DEFAULT_SIMILARITY_THRESHOLD
      DEFAULT_PAUSE DEFAULT_TIMEOUT DEFAULT_NBITS DEFAULT_RADIUS "C99999" = none := by
  simp [worker, evaluar_similitud, get_smiles_from_kegg, net1]

theorem get_smiles_net9_C00002 :
    get_smiles_from_kegg libS net9 "C00002" DEFAULT_PAUSE DEFAULT_TIMEOUT =
      some "CCO" := by
  simp [get_smiles_from_kegg, net9, libS]

theorem worker_net9_C00002 :
    worker libS net9 DEFAULT_SMILES_BASE DEFAULT_SIMILARITY_THRESHOLD
      DEFAULT_PAUSE DEFAULT_TIMEOUT DEFAULT_NBITS DEFAULT_RADIUS "C00002" = none := by
  have hth : ¬ DEFAULT_SIMILARITY_THRESHOLD ≤ (0 : ℚ) := by
    norm_num [DEFAULT_SIMILARITY_THRESHOLD]
  simp [worker, evaluar_similitud, get_smiles_net9_C00002, tanimoto_cco_zero, hth]

theorem worker_net9_C00001 :
    worker libS net9 DEFAULT_SMILES_BASE DEFAULT_SIMILARITY_THRESHOLD
      DEFAULT_PAUSE DEFAULT_TIMEOUT DEFAULT_NBITS DEFAULT_RADIUS "C00001" = some rec1 := by
  have hg : get_smiles_from_kegg libS net9 "C00001" DEFAULT_PAUSE DEFAULT_TIMEOUT =
      some DEFAULT_SMILES_BASE := by
    simp [get_smiles_from_kegg, net9, libS]
  have hne : DEFAULT_SMILES_BASE ≠ "" := by decide
  have hth : DEFAULT_SIMILARITY_THRESHOLD ≤ (1 : ℚ) := by
    norm_num [DEFAULT_SIMILARITY_THRESHOLD]
  simp [worker, evaluar_similitud, hg, tanimoto_self_one, hne, hth, rec1]

theorem worker_net1_C00001_high :
    worker libS net1 DEFAULT_SMILES_BASE (101/100) DEFAULT_PAUSE DEFAULT_TIMEOUT
      DEFAULT_NBITS DEFAULT_RADIUS "C00001" = none := by
  have hth : ¬ ((101 : ℚ)/100 ≤ 1) := by norm_num
  simp [worker, evaluar_similitud, get_smiles_net1_C00001, tanimoto_self_one, hth]

theorem TanimotoSimilarity_nonneg (fp1 fp2 : Finset Nat) :
    0 ≤ TanimotoSimilarity fp1 fp2 := by
  unfold TanimotoSimilarity
  positivity

theorem TanimotoSimilarity_le_one (fp1 fp2 : Finset Nat) :
    TanimotoSimilarity fp1 fp2 ≤ 1 := by
  unfold TanimotoSimilarity
  rcases Nat.eq_zero_or_pos (fp1 ∪ fp2).card with h | h
  · simp [h]
  · rw [div_le_one (by exact_mod_cast h)]
    exact_mod_cast Finset.card_le_card (Finset.inter_subset_union)

theorem tanimoto_similarity_pair_nonneg (lib : ChemLib) (s1 s2 : String)
    (nbits radius : Nat) : 0 ≤ tanimoto_similarity_pair lib s1 s2 nbits radius := by
  unfold tanimoto_similarity_pair
  rcases lib.MolFromSmiles s1 with _ | m1 <;> rcases lib.MolFromSmiles s2 with _ | m2 <;>
    simp [TanimotoSimilarity_nonneg]

theorem tanimoto_similarity_pair_le_one (lib : ChemLib) (s1 s2 : String)
    (nbits radius : Nat) : tanimoto_similarity_pair lib s1 s2 nbits radius ≤ 1 := by
  unfold tanimoto_similarity_pair
  rcases lib.MolFromSmiles s1 with _ | m1 <;> rcases lib.MolFromSmiles s2 with _ | m2 <;>
    simp [TanimotoSimilarity_le_one]

theorem sort_resultados_pairwise (l : List MatchRec) :
    List.Pairwise (fun a b : MatchRec => b.sim ≤ a.sim) (sort_resultados l) := by
  haveI : IsTotal MatchRec (fun a b : MatchRec => b.sim ≤ a.sim) :=
    ⟨fun a b => le_total b.sim a.sim⟩
  haveI : IsTrans MatchRec (fun a b : MatchRec => b.sim ≤ a.sim) :=
    ⟨fun _ _ _ hab hbc => le_trans hbc hab⟩
  exact List.sorted_insertionSort _ l

/-- Modelled from the amended wording of the loader claim: one identifier per
line that is nonempty after stripping leading and trailing whitespace, in file
order, each identifier being the first tab-delimited field of the stripped
line. -/
def loader_spec : List String → List String
  | [] => []
  | l :: ls =>
      if pyStrip l = "" then loader_spec ls
      else firstTabField (pyStrip l) :: loader_spec ls

theorem loader_spec_eq (lines : List String) :
    (lines.filter (fun l => pyStrip l ≠ "")).map (fun l => firstTabField (pyStrip l)) =
      loader_spec lines := by
  induction lines with
  | nil => rfl
  | cons l ls ih =>
      by_cases h : pyStrip l = "" <;> simpa [loader_spec, h] using ih

/-- Claim C1: the aggregator is claimed to correlate each worker result with
its originating identifier, recording an identifier in the failed set exactly
when its own worker returned nothing; in the two-identifier scenario (C00001
fetches a structure identical to the reference, C99999 gets an HTTP 404) the
failure file would then contain exactly one row naming C99999.  The source zips
the completion-ordered output of pool.imap_unordered positionally against the
input-ordered identifier list, so under the legal completion order in which the
C99999 result arrives first, the match file does hold the single row for C00001
with similarity 1, but the failure file holds exactly one row naming C00001,
whose own worker succeeded, and no row naming C99999. -/
theorem C1_failed_row_misattributed :
    read_kegg_ids fs1 "compounds.txt" = ["C00001", "C99999"]
    ∧ worker libS net1 DEFAULT_SMILES_BASE DEFAULT_SIMILARITY_THRESHOLD
        DEFAULT_PAUSE DEFAULT_TIMEOUT DEFAULT_NBITS DEFAULT_RADIUS "C00001" = some rec1
    ∧ worker libS net1 DEFAULT_SMILES_BASE DEFAULT_SIMILARITY_THRESHOLD
        DEFAULT_PAUSE DEFAULT_TIMEOUT DEFAULT_NBITS DEFAULT_RADIUS "C99999" = none
    ∧ ValidArrival libS net1 DEFAULT_SMILES_BASE DEFAULT_SIMILARITY_THRESHOLD
        DEFAULT_PAUSE DEFAULT_TIMEOUT DEFAULT_NBITS DEFAULT_RADIUS
        ["C00001", "C99999"] [none, some rec1]
    ∧ (main_run fs1 "compounds.txt" [none, some rec1]).output_file =
        some ⟨["KEGG_ID", "SMILES", "Tanimoto_Similarity"], [rec1]⟩
    ∧ (main_run fs1 "compounds.txt" [none, some rec1]).failed_file =
        some ⟨["KEGG_ID"], ["C00001"]⟩ := by
  refine ⟨by decide, worker_net1_C00001, worker_net1_C99999, ?_, rfl, rfl⟩
  unfold ValidArrival
  rw [List.map_cons, List.map_cons, List.map_nil, worker_net1_C00001, worker_net1_C99999]
  exact List.Perm.swap _ _ _

/-- Claim C2: every input identifier is claimed to land in exactly one bucket
and none to be lost.  Under the same legal completion order as in the C00001
and C99999 scenario, C00001 appears both in the match list and in the failed
list, and C99999 appears in neither, so the partition claim fails on the code
even though both bucket id sets stay inside the input set. -/
theorem C2_partition_violated :
    ValidArrival libS net1 DEFAULT_SMILES_BASE DEFAULT_SIMILARITY_THRESHOLD
        DEFAULT_PAUSE DEFAULT_TIMEOUT DEFAULT_NBITS DEFAULT_RADIUS
        ["C00001", "C99999"] [none, some rec1]
    ∧ "C00001" ∈ (main_collect [none, some rec1] ["C00001", "C99999"]).resultados.map
        MatchRec.kegg_id
    ∧ "C00001" ∈ (main_collect [none, some rec1] ["C00001", "C99999"]).failed_ids
    ∧ "C99999" ∉ (main_collect [none, some rec1] ["C00001", "C99999"]).resultados.map
        MatchRec.kegg_id
    ∧ "C99999" ∉ (main_collect [none, some rec1] ["C00001", "C99999"]).failed_ids := by
  refine ⟨?_, by decide, by decide, by decide, by decide⟩
  unfold ValidArrival
  rw [List.map_cons, List.map_cons, List.map_nil, worker_net1_C00001, worker_net1_C99999]
  exact List.Perm.swap _ _ _

/-- Claim C9: the counts of match rows plus failed rows equal the input count,
and an identifier whose fetch succeeded with similarity below the threshold is
claimed to be counted in the failed list rather than silently omitted.  The
count equation does hold, but under a legal completion order the identifier
C00002, whose fetch succeeded (SMILES CCO) with similarity 0 below the 0.7
threshold, appears in neither output, while the failed list names C00001
instead. -/
theorem C9_below_threshold_omitted :
    get_smiles_from_kegg libS net9 "C00002" DEFAULT_PAUSE DEFAULT_TIMEOUT = some "CCO"
    ∧ tanimoto_similarity_pair libS DEFAULT_SMILES_BASE "CCO" DEFAULT_NBITS DEFAULT_RADIUS
        < DEFAULT_SIMILARITY_THRESHOLD
    ∧ worker libS net9 DEFAULT_SMILES_BASE DEFAULT_SIMILARITY_THRESHOLD DEFAULT_PAUSE
        DEFAULT_TIMEOUT DEFAULT_NBITS DEFAULT_RADIUS "C00002" = none
    ∧ ValidArrival libS net9 DEFAULT_SMILES_BASE DEFAULT_SIMILARITY_THRESHOLD DEFAULT_PAUSE
        DEFAULT_TIMEOUT DEFAULT_NBITS DEFAULT_RADIUS ["C00001", "C00002"] [none, some rec1]
    ∧ (main_collect [none, some rec1] ["C00001", "C00002"]).resultados.length
        + (main_collect [none, some rec1] ["C00001", "C00002"]).failed_ids.length = 2
    ∧ "C00002" ∉ (main_collect [none, some rec1] ["C00001", "C00002"]).resultados.map
        MatchRec.kegg_id
    ∧ "C00002" ∉ (main_collect [none, some rec1] ["C00001", "C00002"]).failed_ids := by
  refine ⟨get_smiles_net9_C00002, ?_, worker_net9_C00002, ?_, by decide, by decide, by decide⟩
  · rw [tanimoto_cco_zero]
    norm_num [DEFAULT_SIMILARITY_THRESHOLD]
  · unfold ValidArrival
    rw [List.map_cons, List.map_cons, List.map_nil, worker_net9_C00001, worker_net9_C00002]
    exact List.Perm.swap _ _ _

/-- Claim C3: in every run that writes a match file, the rows of the match file
are sorted by similarity score in descending order: every adjacent pair of rows
(i, i+1) satisfies score of row i+1 at most score of row i. -/
theorem C3_matches_sorted_desc (fs : String → Option (List String))
    (input_file : String) (arrival : List (Option MatchRec)) (csv : MatchCsv)
    (h : (main_run fs input_file arrival).output_file = some csv) :
    List.Chain' (fun a b : MatchRec => b.sim ≤ a.sim) csv.rows := by
  simp only [main_run] at h
  split at h
  · simp at h
  · simp only [Option.some.injEq] at h
    rw [← h]
    exact (sort_resultados_pairwise _).chain'

/-- Witness for C3 at a concrete run: the two-identifier input with both
results arriving as None writes a match file with the header and no rows. -/
theorem C3_matches_sorted_desc_witness :
    List.Chain' (fun a b : MatchRec => b.sim ≤ a.sim)
      (MatchCsv.mk ["KEGG_ID", "SMILES", "Tanimoto_Similarity"] []).rows :=
  C3_matches_sorted_desc fs1 "compounds.txt" [none, none]
    (MatchCsv.mk ["KEGG_ID", "SMILES", "Tanimoto_Similarity"] []) rfl

/-- Claim C4 counterexample: the claim states that each identifier returned by
the loader is the first tab-delimited field of its line.  For the one-line
existing file whose line is C00001 followed by a space, the loader returns
C00001, yet the first tab-delimited field of that line keeps the trailing
space, so the claim as stated is false; the source strips the line before
splitting. -/
theorem C4_trailing_space_counterexample :
    read_kegg_ids (fun n => if n = "ids.txt" then some ["C00001 "] else none) "ids.txt"
        = ["C00001"]
    ∧ firstTabField "C00001 " = "C00001 "
    ∧ "C00001" ≠ "C00001 " := by
  refine ⟨by decide, by decide, by decide⟩

/-- Claim C4 (amended): for every file path, the loader returns one identifier
per line that is nonempty after stripping leading and trailing whitespace, in
file order, each identifier being the first tab-delimited field of the
whitespace-stripped line; when the file does not exist it logs one error record
and returns the empty sequence rather than raising (the embedding is a total
function). -/
theorem C4_loader_amended (fs : String → Option (List String)) (filename : String) :
    (fs filename = none →
      read_kegg_ids fs filename = []
      ∧ read_kegg_ids_log fs filename =
          [(LogLevel.error, "File not found: " ++ filename)])
    ∧ ∀ lines, fs filename = some lines →
        read_kegg_ids fs filename = loader_spec lines
        ∧ read_kegg_ids_log fs filename = [] := by
  constructor
  · intro h
    simp [read_kegg_ids, read_kegg_ids_log, h]
  · intro lines h
    constructor
    · unfold read_kegg_ids
      rw [h]
      exact loader_spec_eq lines
    · simp [read_kegg_ids_log, h]

/-- Witness for the amended C4 at two concrete file states: a missing file and
a one-line file with a trailing space. -/
theorem C4_loader_amended_witness :
    (read_kegg_ids (fun _ => none) "ids.txt" = []
      ∧ read_kegg_ids_log (fun _ => none) "ids.txt" =
          [(LogLevel.error, "File not found: " ++ "ids.txt")])
    ∧ (read_kegg_ids (fun _ => some ["C00001 "]) "ids.txt" = loader_spec ["C00001 "]
      ∧ read_kegg_ids_log (fun _ => some ["C00001 "]) "ids.txt" = []) :=
  ⟨(C4_loader_amended (fun _ => none) "ids.txt").1 rfl,
   (C4_loader_amended (fun _ => some ["C00001 "]) "ids.txt").2 ["C00001 "] rfl⟩

/-- Claim C5: the worker returns nothing for a non-string or empty identifier;
returns nothing when the fetch fails to produce a usable structure (no response
text parses, or the canonical SMILES is the empty string, which the source
truthiness test if smiles rejects); and otherwise returns the match tuple
(identifier, structure, score) exactly when the computed score is at least the
threshold, nothing when it is below. -/
theorem C5_worker_cases (lib : ChemLib) (net : String → Option String)
    (smiles_base : String) (threshold pause timeout : ℚ) (nbits radius : Nat) :
    evaluar_similitud lib net PyVal.other smiles_base threshold pause timeout nbits radius
        = none
    ∧ evaluar_similitud lib net (PyVal.pystr "") smiles_base threshold pause timeout
        nbits radius = none
    ∧ ∀ kid, kid ≠ "" →
        ((get_smiles_from_kegg lib net kid pause timeout = none ∨
            get_smiles_from_kegg lib net kid pause timeout = some "") →
          evaluar_similitud lib net (PyVal.pystr kid) smiles_base threshold pause timeout
            nbits radius = none)
        ∧ ∀ s, get_smiles_from_kegg lib net kid pause timeout = some s → s ≠ "" →
            (evaluar_similitud lib net (PyVal.pystr kid) smiles_base threshold pause timeout
                nbits radius =
              some ⟨kid, s, tanimoto_similarity_pair lib smiles_base s nbits radius⟩
              ↔ threshold ≤ tanimoto_similarity_pair lib smiles_base s nbits radius)
            ∧ (evaluar_similitud lib net (PyVal.pystr kid) smiles_base threshold pause
                timeout nbits radius = none
              ↔ tanimoto_similarity_pair lib smiles_base s nbits radius < threshold) := by
  refine ⟨rfl, by simp [evaluar_similitud], ?_⟩
  intro kid hkid
  constructor
  · rintro (hg | hg) <;> simp [evaluar_similitud, hkid, hg]
  · intro s hs hsne
    by_cases hge : threshold ≤ tanimoto_similarity_pair lib smiles_base s nbits radius
    · simp [evaluar_similitud, hkid, hs, hsne, ge_iff_le, hge, not_lt.mpr hge]
    · simp [evaluar_similitud, hkid, hs, hsne, ge_iff_le, hge, lt_of_not_le hge]

/-- Witness for C5 at a concrete invocation: the worker for C99999 under the
two-identifier scenario network, whose fetch yields nothing. -/
theorem C5_worker_cases_witness :
    evaluar_similitud libS net1 (PyVal.pystr "C99999") DEFAULT_SMILES_BASE
      DEFAULT_SIMILARITY_THRESHOLD DEFAULT_PAUSE DEFAULT_TIMEOUT DEFAULT_NBITS
      DEFAULT_RADIUS = none :=
  (((C5_worker_cases libS net1 DEFAULT_SMILES_BASE DEFAULT_SIMILARITY_THRESHOLD
      DEFAULT_PAUSE DEFAULT_TIMEOUT DEFAULT_NBITS DEFAULT_RADIUS).2.2 "C99999"
      (by decide)).1 (Or.inl (by decide)))

/-- Claim C6 counterexample: the claim concludes that an unparseable reference
structure means no identifier can ever produce a match.  The threshold is a
free configuration value; with threshold 0, the unparseable reference X still
yields similarity 0.0 and 0.0 meets the threshold, so the worker returns a
match tuple for C00002. -/
theorem C6_zero_threshold_counterexample :
    libS.MolFromSmiles "X" = none
    ∧ evaluar_similitud libS net9 (PyVal.pystr "C00002") "X" 0 DEFAULT_PAUSE
        DEFAULT_TIMEOUT DEFAULT_NBITS DEFAULT_RADIUS = some ⟨"C00002", "CCO", 0⟩ := by
  constructor
  · simp [libS]
  · have hx : tanimoto_similarity_pair libS "X" "CCO" DEFAULT_NBITS DEFAULT_RADIUS = 0 := by
      simp [tanimoto_similarity_pair, libS]
    simp [evaluar_similitud, get_smiles_net9_C00002, hx]

/-- Claim C6 (amended): if either structure string fails to parse, the
similarity function returns exactly 0.0 and does not raise (it is total);
consequently, when the reference structure is unparseable and the configured
threshold is positive, no identifier can produce a match. -/
theorem C6_unparseable_amended (lib : ChemLib) (s1 s2 : String) (nbits radius : Nat)
    (net : String → Option String) (kid : PyVal) (threshold pause timeout : ℚ) :
    ((lib.MolFromSmiles s1 = none ∨ lib.MolFromSmiles s2 = none) →
      tanimoto_similarity_pair lib s1 s2 nbits radius = 0)
    ∧ (lib.MolFromSmiles s1 = none → 0 < threshold →
        evaluar_similitud lib net kid s1 threshold pause timeout nbits radius = none) := by
  have hzero : ∀ t : String, lib.MolFromSmiles s1 = none →
      tanimoto_similarity_pair lib s1 t nbits radius = 0 := by
    intro t h
    simp [tanimoto_similarity_pair, h]
  constructor
  · rintro (h | h)
    · exact hzero s2 h
    · rcases h1 : lib.MolFromSmiles s1 with _ | m1 <;>
        simp [tanimoto_similarity_pair, h1, h]
  · intro h hpos
    cases kid with
    | other => rfl
    | pystr k =>
        by_cases hk : k = ""
        · simp [evaluar_similitud, hk]
        · rcases hg : get_smiles_from_kegg lib net k pause timeout with _ | s
          · simp [evaluar_similitud, hk, hg]
          · by_cases hsne : s = ""
            · simp [evaluar_similitud, hk, hg, hsne]
            · simp [evaluar_similitud, hk, hg, hsne, hzero s h, ge_iff_le,
                not_le.mpr hpos]

/-- Witness for the amended C6 at a concrete toolkit: the reference X does not
parse, its similarity against CCO is 0, and with threshold 1 the worker for
C00002 returns nothing. -/
theorem C6_unparseable_amended_witness :
    tanimoto_similarity_pair libS "X" "CCO" DEFAULT_NBITS DEFAULT_RADIUS = 0
    ∧ evaluar_similitud libS net9 (PyVal.pystr "C00002") "X" 1 DEFAULT_PAUSE
        DEFAULT_TIMEOUT DEFAULT_NBITS DEFAULT_RADIUS = none := by
  have h := C6_unparseable_amended libS "X" "CCO" DEFAULT_NBITS DEFAULT_RADIUS net9
    (PyVal.pystr "C00002") 1 DEFAULT_PAUSE DEFAULT_TIMEOUT
  exact ⟨h.1 (Or.inl (by simp [libS])), h.2 (by simp [libS]) one_pos⟩

/-- Claim C7: for every pair of structure strings and every fingerprint
parameter choice the similarity score lies in the closed interval from 0 to 1,
and consequently a run with threshold 1.01 produces zero match records for any
input, network, toolkit and completion order. -/
theorem C7_score_in_unit_interval (lib : ChemLib) (net : String → Option String)
    (smiles_base s1 s2 : String) (pause timeout : ℚ) (nbits radius : Nat)
    (kegg_ids : List String) (arrival : List (Option MatchRec)) :
    (0 ≤ tanimoto_similarity_pair lib s1 s2 nbits radius
      ∧ tanimoto_similarity_pair lib s1 s2 nbits radius ≤ 1)
    ∧ (ValidArrival lib net smiles_base (101/100) pause timeout nbits radius
        kegg_ids arrival →
      (main_collect arrival kegg_ids).resultados = []) := by
  refine ⟨⟨tanimoto_similarity_pair_nonneg _ _ _ _ _,
    tanimoto_similarity_pair_le_one _ _ _ _ _⟩, ?_⟩
  intro hva
  have hva' : arrival.Perm (kegg_ids.map
      (worker lib net smiles_base (101/100) pause timeout nbits radius)) := hva
  have hw : ∀ kid, worker lib net smiles_base (101/100) pause timeout nbits radius kid
      = none := by
    intro kid
    unfold worker evaluar_similitud
    by_cases hk : kid = ""
    · simp [hk]
    · rcases hg : get_smiles_from_kegg lib net kid pause timeout with _ | s
      · simp [hk, hg]
      · by_cases hs : s = ""
        · simp [hk, hg, hs]
        · have hle := tanimoto_similarity_pair_le_one lib smiles_base s nbits radius
          have hlt : tanimoto_similarity_pair lib smiles_base s nbits radius < 101/100 :=
            lt_of_le_of_lt hle (by norm_num)
          simp [hk, hg, hs, ge_iff_le, not_le.mpr hlt]
  have hall : ∀ x ∈ arrival, x = (none : Option MatchRec) := by
    intro x hx
    rcases List.mem_map.mp (hva'.mem_iff.mp hx) with ⟨kid, _, hk⟩
    rw [← hk, hw kid]
  show (arrival.zip kegg_ids).filterMap (fun p => p.1) = []
  refine List.filterMap_eq_nil_iff.mpr ?_
  rintro ⟨a, b⟩ hp
  exact hall a (List.of_mem_zip hp).1

/-- Witness for C7 at a concrete run: with threshold 1.01 the single worker for
C00001 returns nothing, so a run over the one-identifier input yields an empty
match list. -/
theorem C7_score_in_unit_interval_witness :
    (0 ≤ tanimoto_similarity_pair libS DEFAULT_SMILES_BASE DEFAULT_SMILES_BASE
        DEFAULT_NBITS DEFAULT_RADIUS
      ∧ tanimoto_similarity_pair libS DEFAULT_SMILES_BASE DEFAULT_SMILES_BASE
        DEFAULT_NBITS DEFAULT_RADIUS ≤ 1)
    ∧ (main_collect [none] ["C00001"]).resultados = [] := by
  have h := C7_score_in_unit_interval libS net1 DEFAULT_SMILES_BASE DEFAULT_SMILES_BASE
    DEFAULT_SMILES_BASE DEFAULT_PAUSE DEFAULT_TIMEOUT DEFAULT_NBITS DEFAULT_RADIUS
    ["C00001"] [none]
  refine ⟨h.1, h.2 ?_⟩
  show List.Perm [none] (["C00001"].map (worker libS net1 DEFAULT_SMILES_BASE (101/100)
    DEFAULT_PAUSE DEFAULT_TIMEOUT DEFAULT_NBITS DEFAULT_RADIUS))
  rw [List.map_cons, List.map_nil, worker_net1_C00001_high]

/-- Claim C8: the similarity function is symmetric in its two structure
arguments for every toolkit and every fixed (radius, bit length) parameters. -/
theorem C8_similarity_symmetric (lib : ChemLib) (s1 s2 : String) (nbits radius : Nat) :
    tanimoto_similarity_pair lib s1 s2 nbits radius =
      tanimoto_similarity_pair lib s2 s1 nbits radius := by
  unfold tanimoto_similarity_pair
  rcases h1 : lib.MolFromSmiles s1 with _ | m1 <;>
    rcases h2 : lib.MolFromSmiles s2 with _ | m2 <;>
      simp [TanimotoSimilarity, Finset.inter_comm, Finset.union_comm]

/-- Claim C10: for every run with nonempty input the match file is written,
with its header row, holding the sorted match list (even when empty); the
failed file is none exactly when no identifier landed in failed_ids, and is
written with its header and the failed identifiers as soon as at least one
identifier failed. -/
theorem C10_output_files (fs : String → Option (List String)) (input_file : String)
    (arrival : List (Option MatchRec))
    (h : read_kegg_ids fs input_file ≠ []) :
    (main_run fs input_file arrival).output_file =
      some ⟨["KEGG_ID", "SMILES", "Tanimoto_Similarity"],
        sort_resultados (main_collect arrival (read_kegg_ids fs input_file)).resultados⟩
    ∧ ((main_run fs input_file arrival).failed_file = none
        ↔ (main_collect arrival (read_kegg_ids fs input_file)).failed_ids = [])
    ∧ ((main_collect arrival (read_kegg_ids fs input_file)).failed_ids ≠ [] →
        (main_run fs input_file arrival).failed_file =
          some ⟨["KEGG_ID"],
            (main_collect arrival (read_kegg_ids fs input_file)).failed_ids⟩) := by
  simp only [main_run, if_neg h]
  by_cases hf : (main_collect arrival (read_kegg_ids fs input_file)).failed_ids = [] <;>
    simp [hf]

/-- Witness for C10 at a concrete run: the two-identifier input with both
results arriving as None. -/
theorem C10_output_files_witness :
    (main_run fs1 "compounds.txt" [none, none]).output_file =
      some ⟨["KEGG_ID", "SMILES", "Tanimoto_Similarity"],
        sort_resultados
          (main_collect [none, none] (read_kegg_ids fs1 "compounds.txt")).resultados⟩
    ∧ ((main_run fs1 "compounds.txt" [none, none]).failed_file = none
        ↔ (main_collect [none, none] (read_kegg_ids fs1 "compounds.txt")).failed_ids = [])
    ∧ ((main_collect [none, none] (read_kegg_ids fs1 "compounds.txt")).failed_ids ≠ [] →
        (main_run fs1 "compounds.txt" [none, none]).failed_file =
          some ⟨["KEGG_ID"],
            (main_collect [none, none] (read_kegg_ids fs1 "compounds.txt")).failed_ids⟩) :=
  C10_output_files fs1 "compounds.txt" [none, none] (by decide)
